import Mathlib

/-
  Verification of the socket.io <-> PythonShell session bridge.

  Shallow embedding of the per-connection handler in src/unnamed/part_000
  (the variant with the null-checked `pyshell` local, the async
  `fs.writeFile('creds.json', ...)` call and the `close` handler), and of
  the kickstart variant at the top of src/index.js (the one with
  `setTimeout(() => pyshell.send(""), 200)`).

  The handler is event-driven: we model it as a step function from a
  session state and an incoming event to a new state plus a list of
  observable effects (socket emits, stdin writes, file writes, process
  spawn/terminate, timer registration).  Whether `new PythonShell(...)`
  throws is an environment fact, modelled by the boolean `spawnOk`
  threaded through the run.
-/

namespace BankingBridge

/-- Observable effects of the bridge: `fsWrite path content` is a request to
write `content` at `path` (fs.writeFile / fs.writeFileSync), `emitConsole`
is `socket.emit("console_output", ...)`, `sendStdin` is `pyshell.send(...)`,
`spawn` is a successful `new PythonShell("banking.py", ...)`, `terminate` is
`pyshell.terminate()` / `pyshell.kill()`, and `setTimer ms` is the
registration of a `setTimeout` callback with delay `ms`. -/
inductive Effect where
  | fsWrite (path : String) (content : String)
  | emitConsole (msg : String)
  | sendStdin (line : String)
  | spawn
  | terminate
  | setTimer (ms : Nat)
deriving DecidableEq

/-- The per-connection mutable state of src/unnamed/part_000: the closure
local `let pyshell = null` (here `Option Unit`, `some ()` when a live shell
is assigned), and whether an `fs.writeFile` callback for creds.json is still
pending (registered at connect time when `process.env.CREDS` is set and not
yet fired). -/
structure SessionState where
  pyshell : Option Unit
  awaitingCreds : Bool
deriving DecidableEq

/-- The asynchronous events a connection's handlers can receive:
the `fs.writeFile` completion callback (`credsResult ok`), a stdout line
(`pyshell.on('message')`), a stderr chunk (`pyshell.on('stderr')`), process
exit (`pyshell.on('close')`), a client message
(`socket.on('command_entered')`) and `socket.on('disconnect')`. -/
inductive Event where
  | credsResult (ok : Bool)
  | pyMessage (s : String)
  | pyStderr (s : String)
  | pyClose
  | commandEntered (s : String)
  | disconnect
deriving DecidableEq

/-- `run_python_script` from src/unnamed/part_000 lines 22-47: try to spawn
`banking.py`; on success assign the shell to `pyshell` (its message/stderr/
close handlers are attached there and modelled in `step`); on a thrown
spawn error, emit the literal 'Python failed to start' to the client and
leave `pyshell` as it was (null). -/
def run_python_script : Bool → SessionState → SessionState × List Effect
  | true, st => ({ st with pyshell := some () }, [Effect.spawn])
  | false, st => (st, [Effect.emitConsole "Python failed to start"])

/-- The connection handler body, src/unnamed/part_000 lines 17-74: if
`process.env.CREDS` is set (here `creds = some v`), request the write of its
raw value to the fixed path creds.json and wait for the callback before
spawning; otherwise call `run_python_script` immediately. -/
def onConnect (creds : Option String) (spawnOk : Bool) : SessionState × List Effect :=
  match creds with
  | some v => ({ pyshell := none, awaitingCreds := true }, [Effect.fsWrite "creds.json" v])
  | none => run_python_script spawnOk { pyshell := none, awaitingCreds := false }

/-- One event handled by the registered callbacks of src/unnamed/part_000:
* `credsResult ok` — the `fs.writeFile` callback (lines 64-70): on success
  call `run_python_script`, on error emit the literal failure message; a
  callback that was never registered cannot fire (guarded by
  `awaitingCreds`, which is consumed by the first firing);
* `pyMessage`/`pyStderr` (lines 30-36) — forward the payload verbatim as one
  `console_output` emit;
* `pyClose` (lines 38-41) — emit the terminal message and null out `pyshell`;
* `commandEntered` (lines 49-52) — `if (!pyshell) return; pyshell.send(command)`;
* `disconnect` (lines 54-60) — `if (pyshell) { pyshell.terminate(); pyshell = null; }`. -/
def step (spawnOk : Bool) (st : SessionState) : Event → SessionState × List Effect
  | Event.credsResult ok =>
    match st.awaitingCreds, ok with
    | false, _ => (st, [])
    | true, true => run_python_script spawnOk { st with awaitingCreds := false }
    | true, false =>
      ({ st with awaitingCreds := false }, [Effect.emitConsole "❌ Failed to write creds.json"])
  | Event.pyMessage s => (st, [Effect.emitConsole s])
  | Event.pyStderr s => (st, [Effect.emitConsole s])
  | Event.pyClose => ({ st with pyshell := none }, [Effect.emitConsole "\n❌ Program exited"])
  | Event.commandEntered s =>
    match st.pyshell with
    | none => (st, [])
    | some _ => (st, [Effect.sendStdin s])
  | Event.disconnect =>
    match st.pyshell with
    | none => (st, [])
    | some _ => ({ st with pyshell := none }, [Effect.terminate])

/-- Run a list of events through `step`, concatenating the effects in
order. -/
def runEvents (spawnOk : Bool) : SessionState → List Event → SessionState × List Effect
  | st, [] => (st, [])
  | st, e :: es =>
    ((runEvents spawnOk (step spawnOk st e).1 es).1,
     (step spawnOk st e).2 ++ (runEvents spawnOk (step spawnOk st e).1 es).2)

/-- A whole session: the connection handler followed by any sequence of
asynchronous events. -/
def runSession (creds : Option String) (spawnOk : Bool) (events : List Event) :
    SessionState × List Effect :=
  ((runEvents spawnOk (onConnect creds spawnOk).1 events).1,
   (onConnect creds spawnOk).2 ++ (runEvents spawnOk (onConnect creds spawnOk).1 events).2)

/-- Recognizer for the `spawn` effect. -/
def isSpawn : Effect → Bool
  | Effect.spawn => true
  | _ => false

/-- Number of subprocesses spawned in an effect trace. -/
def countSpawn (effs : List Effect) : Nat :=
  effs.countP isSpawn

/-- The payload of a `sendStdin` effect, if any. -/
def stdinOf : Effect → Option String
  | Effect.sendStdin s => some s
  | _ => none

/-- The lines delivered to the subprocess's standard input, in order. -/
def stdinLines (effs : List Effect) : List String :=
  effs.filterMap stdinOf

/-- The payload of an `emitConsole` effect, if any. -/
def consoleOf : Effect → Option String
  | Effect.emitConsole s => some s
  | _ => none

/-- The `console_output` payloads sent to the client, in order. -/
def consoleOutputs (effs : List Effect) : List String :=
  effs.filterMap consoleOf

/-- The path of an `fsWrite` effect, if any. -/
def pathOf : Effect → Option String
  | Effect.fsWrite p _ => some p
  | _ => none

/-- The file-system paths a trace writes to, in order. -/
def pathsWritten (effs : List Effect) : List String :=
  effs.filterMap pathOf

/-- Node's `fs.writeFile` replaces the file's content wholesale (no append):
the content of a file location after an effect. -/
def applyEffect (file : Option String) : Effect → Option String
  | Effect.fsWrite _ c => some c
  | _ => file

/-- File content after a successful run of the write requests in a trace. -/
def fileAfter (file : Option String) (effs : List Effect) : Option String :=
  effs.foldl applyEffect file

@[simp]
lemma isSpawn_fsWrite (p c : String) : isSpawn (Effect.fsWrite p c) = false := rfl

@[simp]
lemma isSpawn_emitConsole (s : String) : isSpawn (Effect.emitConsole s) = false := rfl

@[simp]
lemma isSpawn_sendStdin (s : String) : isSpawn (Effect.sendStdin s) = false := rfl

@[simp]
lemma isSpawn_spawn : isSpawn Effect.spawn = true := rfl

@[simp]
lemma isSpawn_terminate : isSpawn Effect.terminate = false := rfl

@[simp]
lemma isSpawn_setTimer (ms : Nat) : isSpawn (Effect.setTimer ms) = false := rfl

@[simp]
lemma stdinOf_fsWrite (p c : String) : stdinOf (Effect.fsWrite p c) = none := rfl

@[simp]
lemma stdinOf_emitConsole (s : String) : stdinOf (Effect.emitConsole s) = none := rfl

@[simp]
lemma stdinOf_sendStdin (s : String) : stdinOf (Effect.sendStdin s) = some s := rfl

@[simp]
lemma stdinOf_spawn : stdinOf Effect.spawn = none := rfl

@[simp]
lemma stdinOf_terminate : stdinOf Effect.terminate = none := rfl

@[simp]
lemma stdinOf_setTimer (ms : Nat) : stdinOf (Effect.setTimer ms) = none := rfl

@[simp]
lemma consoleOf_fsWrite (p c : String) : consoleOf (Effect.fsWrite p c) = none := rfl

@[simp]
lemma consoleOf_emitConsole (s : String) : consoleOf (Effect.emitConsole s) = some s := rfl

@[simp]
lemma consoleOf_sendStdin (s : String) : consoleOf (Effect.sendStdin s) = none := rfl

@[simp]
lemma consoleOf_spawn : consoleOf Effect.spawn = none := rfl

@[simp]
lemma consoleOf_terminate : consoleOf Effect.terminate = none := rfl

@[simp]
lemma consoleOf_setTimer (ms : Nat) : consoleOf (Effect.setTimer ms) = none := rfl

@[simp]
lemma pathOf_fsWrite (p c : String) : pathOf (Effect.fsWrite p c) = some p := rfl

@[simp]
lemma pathOf_emitConsole (s : String) : pathOf (Effect.emitConsole s) = none := rfl

@[simp]
lemma pathOf_sendStdin (s : String) : pathOf (Effect.sendStdin s) = none := rfl

@[simp]
lemma pathOf_spawn : pathOf Effect.spawn = none := rfl

@[simp]
lemma pathOf_terminate : pathOf Effect.terminate = none := rfl

@[simp]
lemma pathOf_setTimer (ms : Nat) : pathOf (Effect.setTimer ms) = none := rfl

@[simp]
lemma countSpawn_nil : countSpawn [] = 0 := rfl

@[simp]
lemma stdinLines_nil : stdinLines [] = [] := rfl

@[simp]
lemma consoleOutputs_nil : consoleOutputs [] = [] := rfl

@[simp]
lemma pathsWritten_nil : pathsWritten [] = [] := rfl

@[simp]
lemma countSpawn_cons (e : Effect) (effs : List Effect) :
    countSpawn (e :: effs) = (if isSpawn e then 1 else 0) + countSpawn effs := by
  simp [countSpawn, List.countP_cons, Nat.add_comm]

@[simp]
lemma countSpawn_append (l1 l2 : List Effect) :
    countSpawn (l1 ++ l2) = countSpawn l1 + countSpawn l2 := by
  simp [countSpawn, List.countP_append]

@[simp]
lemma stdinLines_append (l1 l2 : List Effect) :
    stdinLines (l1 ++ l2) = stdinLines l1 ++ stdinLines l2 := by
  simp [stdinLines]

@[simp]
lemma consoleOutputs_append (l1 l2 : List Effect) :
    consoleOutputs (l1 ++ l2) = consoleOutputs l1 ++ consoleOutputs l2 := by
  simp [consoleOutputs]

@[simp]
lemma pathsWritten_append (l1 l2 : List Effect) :
    pathsWritten (l1 ++ l2) = pathsWritten l1 ++ pathsWritten l2 := by
  simp [pathsWritten]

@[simp]
lemma pathsWritten_cons_spawn (l : List Effect) :
    pathsWritten (Effect.spawn :: l) = pathsWritten l := rfl

@[simp]
lemma pathsWritten_cons_emit (s : String) (l : List Effect) :
    pathsWritten (Effect.emitConsole s :: l) = pathsWritten l := rfl

@[simp]
lemma pathsWritten_cons_fsWrite (p c : String) (l : List Effect) :
    pathsWritten (Effect.fsWrite p c :: l) = p :: pathsWritten l := rfl

@[simp]
lemma stdinLines_cons_fsWrite (p c : String) (l : List Effect) :
    stdinLines (Effect.fsWrite p c :: l) = stdinLines l := rfl

@[simp]
lemma stdinLines_cons_emit (s : String) (l : List Effect) :
    stdinLines (Effect.emitConsole s :: l) = stdinLines l := rfl

@[simp]
lemma stdinLines_cons_spawn (l : List Effect) :
    stdinLines (Effect.spawn :: l) = stdinLines l := rfl

@[simp]
lemma stdinLines_cons_setTimer (ms : Nat) (l : List Effect) :
    stdinLines (Effect.setTimer ms :: l) = stdinLines l := rfl

@[simp]
lemma stdinLines_cons_terminate (l : List Effect) :
    stdinLines (Effect.terminate :: l) = stdinLines l := rfl

@[simp]
lemma stdinLines_cons_send (s : String) (l : List Effect) :
    stdinLines (Effect.sendStdin s :: l) = s :: stdinLines l := rfl

@[simp]
lemma stdinLines_map_send (cs : List String) :
    stdinLines (cs.map Effect.sendStdin) = cs := by
  induction cs with
  | nil => rfl
  | cons c cs ih => simp [ih]

lemma runEvents_nil (spawnOk : Bool) (st : SessionState) :
    runEvents spawnOk st [] = (st, []) := rfl

lemma runEvents_cons (spawnOk : Bool) (st : SessionState) (e : Event) (es : List Event) :
    runEvents spawnOk st (e :: es) =
      ((runEvents spawnOk (step spawnOk st e).1 es).1,
       (step spawnOk st e).2 ++ (runEvents spawnOk (step spawnOk st e).1 es).2) := rfl

/-- No handler ever re-registers the `fs.writeFile` callback: `awaitingCreds`
never turns back on. -/
lemma step_awaitingCreds_mono (spawnOk : Bool) (st : SessionState) (e : Event)
    (h : st.awaitingCreds = false) :
    ((step spawnOk st e).1).awaitingCreds = false := by
  cases e with
  | credsResult ok => simp [step, h]
  | pyMessage s => simp [step, h]
  | pyStderr s => simp [step, h]
  | pyClose => simp [step, h]
  | commandEntered s => cases hp : st.pyshell <;> simp [step, hp, h]
  | disconnect => cases hp : st.pyshell <;> simp [step, hp, h]

/-- Once the creds callback is consumed (or was never registered), no step
can spawn a subprocess. -/
lemma step_no_spawn (spawnOk : Bool) (st : SessionState) (e : Event)
    (h : st.awaitingCreds = false) :
    countSpawn (step spawnOk st e).2 = 0 := by
  cases e with
  | credsResult ok => simp [step, h]
  | pyMessage s => simp [step]
  | pyStderr s => simp [step]
  | pyClose => simp [step]
  | commandEntered s => cases hp : st.pyshell <;> simp [step, hp]
  | disconnect => cases hp : st.pyshell <;> simp [step, hp]

/-- From a state whose creds callback is no longer pending, a whole event
sequence spawns nothing. -/
lemma runEvents_no_spawn (spawnOk : Bool) (st : SessionState) (es : List Event)
    (h : st.awaitingCreds = false) :
    countSpawn (runEvents spawnOk st es).2 = 0 := by
  induction es generalizing st with
  | nil => simp [runEvents_nil]
  | cons e es ih =>
    rw [runEvents_cons, countSpawn_append, step_no_spawn spawnOk st e h,
      ih _ (step_awaitingCreds_mono spawnOk st e h)]

/-- A single step spawns at most one subprocess, and only while the creds
callback is pending. -/
lemma step_spawn_le (spawnOk : Bool) (st : SessionState) (e : Event) :
    countSpawn (step spawnOk st e).2 ≤ 1 := by
  cases e with
  | credsResult ok =>
    cases ha : st.awaitingCreds <;> cases ok <;>
      cases spawnOk <;> simp [step, ha, run_python_script]
  | pyMessage s => simp [step]
  | pyStderr s => simp [step]
  | pyClose => simp [step]
  | commandEntered s => cases hp : st.pyshell <;> simp [step, hp]
  | disconnect => cases hp : st.pyshell <;> simp [step, hp]

/-- If a step does spawn, the creds callback has just been consumed. -/
lemma step_spawn_consumes (spawnOk : Bool) (st : SessionState) (e : Event)
    (h : countSpawn (step spawnOk st e).2 ≠ 0) :
    ((step spawnOk st e).1).awaitingCreds = false := by
  cases e with
  | credsResult ok =>
    cases ha : st.awaitingCreds <;> cases ok <;>
      cases spawnOk <;> simp_all [step, run_python_script]
  | pyMessage s => simp [step] at h
  | pyStderr s => simp [step] at h
  | pyClose => simp [step] at h
  | commandEntered s => cases hp : st.pyshell <;> simp [step, hp] at h
  | disconnect => cases hp : st.pyshell <;> simp [step, hp] at h

/-- Across any event sequence, at most one subprocess is ever spawned. -/
lemma runEvents_spawn_le (spawnOk : Bool) (st : SessionState) (es : List Event) :
    countSpawn (runEvents spawnOk st es).2 ≤ 1 := by
  induction es generalizing st with
  | nil => simp [runEvents_nil]
  | cons e es ih =>
    rw [runEvents_cons, countSpawn_append]
    by_cases h : countSpawn (step spawnOk st e).2 = 0
    · rw [h]
      simpa using ih (step spawnOk st e).1
    · have h1 := step_spawn_le spawnOk st e
      have h2 := runEvents_no_spawn spawnOk (step spawnOk st e).1 es
        (step_spawn_consumes spawnOk st e h)
      omega

/-- Events other than the creds callback preserve a pending creds callback. -/
lemma step_awaitingCreds_stable (spawnOk : Bool) (st : SessionState) (e : Event)
    (h : st.awaitingCreds = true) (hne : ∀ b, e ≠ Event.credsResult b) :
    ((step spawnOk st e).1).awaitingCreds = true := by
  cases e with
  | credsResult ok => exact absurd rfl (hne ok)
  | pyMessage s => simp [step, h]
  | pyStderr s => simp [step, h]
  | pyClose => simp [step, h]
  | commandEntered s => cases hp : st.pyshell <;> simp [step, hp, h]
  | disconnect => cases hp : st.pyshell <;> simp [step, hp, h]

/-- Events other than the creds callback never spawn. -/
lemma step_no_spawn_other (spawnOk : Bool) (st : SessionState) (e : Event)
    (hne : ∀ b, e ≠ Event.credsResult b) :
    countSpawn (step spawnOk st e).2 = 0 := by
  cases e with
  | credsResult ok => exact absurd rfl (hne ok)
  | pyMessage s => simp [step]
  | pyStderr s => simp [step]
  | pyClose => simp [step]
  | commandEntered s => cases hp : st.pyshell <;> simp [step, hp]
  | disconnect => cases hp : st.pyshell <;> simp [step, hp]

/-- If the pending creds write succeeds (exactly one callback fires, with
`ok = true`) and spawning succeeds, exactly one subprocess is spawned. -/
lemma runEvents_spawn_exact (st : SessionState) (es : List Event)
    (h1 : st.awaitingCreds = true)
    (h2 : Event.credsResult true ∈ es)
    (h3 : Event.credsResult false ∉ es) :
    countSpawn (runEvents true st es).2 = 1 := by
  induction es generalizing st with
  | nil => cases h2
  | cons e es ih =>
    rw [runEvents_cons, countSpawn_append]
    by_cases hcr : ∃ b, e = Event.credsResult b
    · obtain ⟨b, rfl⟩ := hcr
      cases b with
      | true =>
        have hstep : step true st (Event.credsResult true) =
            ({ st with awaitingCreds := false, pyshell := some () }, [Effect.spawn]) := by
          simp [step, h1, run_python_script]
        rw [hstep]
        have : countSpawn (runEvents true
            { st with awaitingCreds := false, pyshell := some () } es).2 = 0 :=
          runEvents_no_spawn true _ es rfl
        simp [this]
      | false => exact absurd (List.mem_cons_self _ _) h3
    · push_neg at hcr
      have hne : ∀ b, e ≠ Event.credsResult b := hcr
      rw [step_no_spawn_other true st e hne,
        ih (step true st e).1 (step_awaitingCreds_stable true st e h1 hne)
          (by
            rcases List.mem_cons.mp h2 with h | h
            · exact absurd h.symm (hne true)
            · exact h)
          (fun hmem => h3 (List.mem_cons_of_mem _ hmem))]

/-- In a dead session (no shell, no pending creds write), every handler is a
no-op on the state and neither spawns, nor writes stdin, nor writes a file. -/
lemma step_closed (spawnOk : Bool) (st : SessionState) (e : Event)
    (h1 : st.awaitingCreds = false) (h2 : st.pyshell = none) :
    (step spawnOk st e).1 = st ∧ countSpawn (step spawnOk st e).2 = 0 ∧
      stdinLines (step spawnOk st e).2 = [] ∧ pathsWritten (step spawnOk st e).2 = [] := by
  obtain ⟨p, a⟩ := st
  simp only at h1 h2
  subst h1
  subst h2
  cases e with
  | credsResult ok => simp [step, stdinLines, pathsWritten]
  | pyMessage s => simp [step, stdinLines, pathsWritten]
  | pyStderr s => simp [step, stdinLines, pathsWritten]
  | pyClose => simp [step, stdinLines, pathsWritten]
  | commandEntered s => simp [step, stdinLines, pathsWritten]
  | disconnect => simp [step, stdinLines, pathsWritten]

/-- A dead session stays dead: the state is unchanged by any event sequence
and nothing is spawned, sent to stdin or written to disk. -/
lemma runEvents_closed (spawnOk : Bool) (st : SessionState) (es : List Event)
    (h1 : st.awaitingCreds = false) (h2 : st.pyshell = none) :
    (runEvents spawnOk st es).1 = st ∧ countSpawn (runEvents spawnOk st es).2 = 0 ∧
      stdinLines (runEvents spawnOk st es).2 = [] ∧
      pathsWritten (runEvents spawnOk st es).2 = [] := by
  induction es with
  | nil => simp [runEvents_nil]
  | cons e es ih =>
    obtain ⟨hst, hsp, hsd, hpw⟩ := step_closed spawnOk st e h1 h2
    rw [runEvents_cons, hst]
    obtain ⟨ist, isp, isd, ipw⟩ := ih
    refine ⟨ist, ?_, ?_, ?_⟩
    · simp [countSpawn_append, hsp, isp]
    · simp [stdinLines_append, hsd, isd]
    · simp [pathsWritten_append, hpw, ipw]

/-- No handler writes a file: only the connection handler itself requests the
creds.json write. -/
lemma step_no_write (spawnOk : Bool) (st : SessionState) (e : Event) :
    pathsWritten (step spawnOk st e).2 = [] := by
  cases e with
  | credsResult ok =>
    cases ha : st.awaitingCreds <;> cases ok <;>
      cases spawnOk <;> simp [step, ha, run_python_script, pathsWritten]
  | pyMessage s => simp [step, pathsWritten]
  | pyStderr s => simp [step, pathsWritten]
  | pyClose => simp [step, pathsWritten]
  | commandEntered s => cases hp : st.pyshell <;> simp [step, hp, pathsWritten]
  | disconnect => cases hp : st.pyshell <;> simp [step, hp, pathsWritten]

/-- No event sequence writes a file. -/
lemma runEvents_no_write (spawnOk : Bool) (st : SessionState) (es : List Event) :
    pathsWritten (runEvents spawnOk st es).2 = [] := by
  induction es generalizing st with
  | nil => simp [runEvents_nil]
  | cons e es ih =>
    rw [runEvents_cons, pathsWritten_append, step_no_write, ih]
    rfl

/-- When spawning fails, a session whose shell is absent keeps it absent and
neither spawns nor forwards stdin. -/
lemma step_spawn_fail (st : SessionState) (e : Event) (h : st.pyshell = none) :
    ((step false st e).1).pyshell = none ∧ countSpawn (step false st e).2 = 0 ∧
      stdinLines (step false st e).2 = [] := by
  cases e with
  | credsResult ok =>
    cases ha : st.awaitingCreds <;> cases ok <;>
      simp [step, ha, run_python_script, stdinLines, h]
  | pyMessage s => simp [step, stdinLines, h]
  | pyStderr s => simp [step, stdinLines, h]
  | pyClose => simp [step, stdinLines]
  | commandEntered s => simp [step, h, stdinLines]
  | disconnect => simp [step, h, stdinLines]

/-- When spawning fails, the shell stays absent through any event sequence
and nothing is spawned or sent to stdin. -/
lemma runEvents_spawn_fail (st : SessionState) (es : List Event) (h : st.pyshell = none) :
    ((runEvents false st es).1).pyshell = none ∧
      countSpawn (runEvents false st es).2 = 0 ∧
      stdinLines (runEvents false st es).2 = [] := by
  induction es generalizing st with
  | nil => simpa [runEvents_nil] using h
  | cons e es ih =>
    obtain ⟨hp, hsp, hsd⟩ := step_spawn_fail st e h
    obtain ⟨ip, isp, isd⟩ := ih (step false st e).1 hp
    rw [runEvents_cons]
    refine ⟨ip, ?_, ?_⟩
    · simp [countSpawn_append, hsp, isp]
    · simp [stdinLines_append, hsd, isd]

/-
  The kickstart variant at the top of src/index.js: `pyshell` is a `const`
  created directly in the connection handler (no null checks, no close
  handler), creds are written synchronously first, and the handler ends with
  `setTimeout(() => pyshell.send(""), 200)`.
-/

/-- State of the kickstart-variant session: whether `pyshell.kill()` has been
called (the `const pyshell` binding itself never changes). -/
structure KickstartState where
  killed : Bool
deriving DecidableEq

/-- Events of the kickstart variant: stdout line, error event, client
command, disconnect, and the 200 ms `setTimeout` callback firing. -/
inductive KEvent where
  | pyMessage (s : String)
  | pyError (s : String)
  | commandEntered (s : String)
  | disconnect
  | timerFire
deriving DecidableEq

/-- The connection handler of src/index.js lines 22-53: `writeCreds()` (a
synchronous creds.json write when CREDS is set), then
`new PythonShell("banking.py", ...)`, then registration of the 200 ms
kickstart timer. -/
def kickConnect (creds : Option String) : KickstartState × List Effect :=
  ({ killed := false },
   (match creds with
    | some v => [Effect.fsWrite "creds.json" v]
    | none => []) ++ [Effect.spawn, Effect.setTimer 200])

/-- One event handled by the kickstart variant's callbacks, src/index.js
lines 32-52: message and error events are forwarded to `console_output`;
`command_entered` calls `pyshell.send(command)` unconditionally; disconnect
calls `pyshell.kill()`; the timer callback calls `pyshell.send("")`
unconditionally. -/
def kickStep (st : KickstartState) : KEvent → KickstartState × List Effect
  | KEvent.pyMessage s => (st, [Effect.emitConsole s])
  | KEvent.pyError s => (st, [Effect.emitConsole s])
  | KEvent.commandEntered s => (st, [Effect.sendStdin s])
  | KEvent.disconnect => ({ killed := true }, [Effect.terminate])
  | KEvent.timerFire => (st, [Effect.sendStdin ""])

/-- Run a list of events through the kickstart variant's handlers. -/
def kickRun : KickstartState → List KEvent → KickstartState × List Effect
  | st, [] => (st, [])
  | st, e :: es =>
    ((kickRun (kickStep st e).1 es).1,
     (kickStep st e).2 ++ (kickRun (kickStep st e).1 es).2)

/-- A whole kickstart-variant session. -/
def kickSession (creds : Option String) (events : List KEvent) :
    KickstartState × List Effect :=
  ((kickRun (kickConnect creds).1 events).1,
   (kickConnect creds).2 ++ (kickRun (kickConnect creds).1 events).2)

lemma kickRun_nil (st : KickstartState) : kickRun st [] = (st, []) := rfl

lemma kickRun_cons (st : KickstartState) (e : KEvent) (es : List KEvent) :
    kickRun st (e :: es) =
      ((kickRun (kickStep st e).1 es).1,
       (kickStep st e).2 ++ (kickRun (kickStep st e).1 es).2) := rfl

lemma kickRun_append (st : KickstartState) (es1 es2 : List KEvent) :
    kickRun st (es1 ++ es2) =
      ((kickRun (kickRun st es1).1 es2).1,
       (kickRun st es1).2 ++ (kickRun (kickRun st es1).1 es2).2) := by
  induction es1 generalizing st with
  | nil => simp [kickRun_nil]
  | cons e es ih => simp [kickRun_cons, ih]

/-- A block of client commands is forwarded one-to-one to stdin, state
unchanged. -/
lemma kickRun_commands (st : KickstartState) (cs : List String) :
    kickRun st (cs.map KEvent.commandEntered) =
      (st, cs.map Effect.sendStdin) := by
  induction cs with
  | nil => simp [kickRun_nil]
  | cons c cs ih => simp [kickRun_cons, kickStep, ih]

/-- Claim C1: for every client connection, the bridge spawns exactly one
subprocess (at most one in all runs, and exactly one on the paths where the
optional creds write and the spawn succeed), a Session owns at most one
subprocess at any time (the spawn count of any whole session is at most
one, and the owned handle is a single nullable slot), and at the disconnect
event any owned subprocess is terminated and the slot cleared. -/
theorem C1_session_lifecycle (creds : Option String) (spawnOk : Bool) (events : List Event) :
    countSpawn (runSession creds spawnOk events).2 ≤ 1
    ∧ (spawnOk = true → creds = none →
        countSpawn (runSession creds spawnOk events).2 = 1)
    ∧ (spawnOk = true → creds.isSome = true → Event.credsResult true ∈ events →
        Event.credsResult false ∉ events →
        countSpawn (runSession creds spawnOk events).2 = 1)
    ∧ (∀ st : SessionState, st.pyshell = some () →
        step spawnOk st Event.disconnect = ({ st with pyshell := none }, [Effect.terminate])) := by
  refine ⟨?_, ?_, ?_, ?_⟩
  · cases creds with
    | some v =>
      have h := runEvents_spawn_le spawnOk { pyshell := none, awaitingCreds := true } events
      simpa [runSession, onConnect] using h
    | none =>
      cases spawnOk with
      | true =>
        have h := runEvents_no_spawn true { pyshell := some (), awaitingCreds := false } events rfl
        simp [runSession, onConnect, run_python_script, h]
      | false =>
        have h := runEvents_no_spawn false { pyshell := none, awaitingCreds := false } events rfl
        simp [runSession, onConnect, run_python_script, h]
  · intro h1 h2
    subst h1
    subst h2
    have h := runEvents_no_spawn true { pyshell := some (), awaitingCreds := false } events rfl
    simp [runSession, onConnect, run_python_script, h]
  · intro h1 h2 h3 h4
    subst h1
    cases creds with
    | none => simp at h2
    | some v =>
      have h := runEvents_spawn_exact { pyshell := none, awaitingCreds := true } events rfl h3 h4
      simp [runSession, onConnect, h]
  · intro st h
    simp [step, h]

/-- Witness for C1 at a concrete session: creds write succeeds, one
subprocess is spawned, and disconnect from a running state terminates it. -/
theorem C1_session_lifecycle_witness :
    countSpawn (runSession (some "tok") true [Event.credsResult true, Event.disconnect]).2 = 1
    ∧ step true { pyshell := some (), awaitingCreds := false } Event.disconnect
        = ({ pyshell := none, awaitingCreds := false }, [Effect.terminate]) := by
  have h := C1_session_lifecycle (some "tok") true [Event.credsResult true, Event.disconnect]
  exact ⟨h.2.2.1 rfl rfl (by decide) (by decide),
    h.2.2.2 { pyshell := some (), awaitingCreds := false } rfl⟩

/-- Claim C2: every stdout line and every stderr chunk the subprocess
produces is forwarded to the client as exactly one `console_output` emit,
verbatim, with no state change, and a block of stdout lines is forwarded in
production order with no coalescing. -/
theorem C2_output_forwarded_verbatim (spawnOk : Bool) (st : SessionState) (s : String)
    (ms : List String) :
    step spawnOk st (Event.pyMessage s) = (st, [Effect.emitConsole s])
    ∧ step spawnOk st (Event.pyStderr s) = (st, [Effect.emitConsole s])
    ∧ runEvents spawnOk st (ms.map Event.pyMessage) = (st, ms.map Effect.emitConsole) := by
  refine ⟨rfl, rfl, ?_⟩
  induction ms with
  | nil => rfl
  | cons m ms ih => simp [runEvents_cons, step, ih]

/-- Claim C3: while the Session owns a live subprocess, each
`command_entered` payload is delivered to the subprocess stdin as one line,
unmodified, and a block of inbound commands is delivered in receipt
order. -/
theorem C3_commands_forwarded_in_order (spawnOk : Bool) (st : SessionState) (s : String)
    (cs : List String) (h : st.pyshell = some ()) :
    step spawnOk st (Event.commandEntered s) = (st, [Effect.sendStdin s])
    ∧ runEvents spawnOk st (cs.map Event.commandEntered) = (st, cs.map Effect.sendStdin) := by
  refine ⟨by simp [step, h], ?_⟩
  induction cs with
  | nil => rfl
  | cons c cs ih => simp [runEvents_cons, step, h, ih]

/-- Witness for C3 at a concrete running state and two commands. -/
theorem C3_commands_forwarded_in_order_witness :
    runEvents true { pyshell := some (), awaitingCreds := false }
        [Event.commandEntered "balance", Event.commandEntered "100"]
      = ({ pyshell := some (), awaitingCreds := false },
         [Effect.sendStdin "balance", Effect.sendStdin "100"]) := by
  have h := (C3_commands_forwarded_in_order true { pyshell := some (), awaitingCreds := false }
    "balance" ["balance", "100"] rfl).2
  simpa using h

/-- Claim C4: a `command_entered` received while the Session owns no live
subprocess (before spawn, after spawn failure, or after exit) is dropped:
no stdin write, no state change (nothing queued), no emit to the client. -/
theorem C4_commands_dropped_when_not_running (spawnOk : Bool) (st : SessionState) (s : String)
    (h : st.pyshell = none) :
    step spawnOk st (Event.commandEntered s) = (st, []) := by
  simp [step, h]

/-- Witness for C4: a command arriving while the creds write is still
pending (no subprocess yet) is dropped. -/
theorem C4_commands_dropped_when_not_running_witness :
    step true { pyshell := none, awaitingCreds := true } (Event.commandEntered "balance")
      = ({ pyshell := none, awaitingCreds := true }, []) :=
  C4_commands_dropped_when_not_running true { pyshell := none, awaitingCreds := true }
    "balance" rfl

/-- Claim C5: with CREDS set, the raw value is written to the fixed path
creds.json as the very first effect of the session (hence before any spawn);
the write replaces the previous content wholesale (overwrite, not append);
with CREDS absent no file write ever happens and, when spawning succeeds,
the subprocess is still spawned. -/
theorem C5_creds_materialization (v : String) (spawnOk : Bool) (events : List Event)
    (init : Option String) :
    (∃ rest, (runSession (some v) spawnOk events).2 = Effect.fsWrite "creds.json" v :: rest)
    ∧ fileAfter init [Effect.fsWrite "creds.json" v] = some v
    ∧ pathsWritten (runSession none spawnOk events).2 = []
    ∧ (spawnOk = true → countSpawn (runSession none spawnOk events).2 = 1) := by
  refine ⟨⟨(runEvents spawnOk { pyshell := none, awaitingCreds := true } events).2, ?_⟩,
    rfl, ?_, ?_⟩
  · simp [runSession, onConnect]
  · cases spawnOk with
    | true =>
      have h := runEvents_no_write true { pyshell := some (), awaitingCreds := false } events
      simp [runSession, onConnect, run_python_script, h]
    | false =>
      have h := runEvents_no_write false { pyshell := none, awaitingCreds := false } events
      simp [runSession, onConnect, run_python_script, h]
  · intro h
    subst h
    have h0 := runEvents_no_spawn true { pyshell := some (), awaitingCreds := false } events rfl
    simp [runSession, onConnect, run_python_script, h0]

/-- Witness for C5: overwriting an existing creds.json with `secret123`
yields exactly `secret123`, and a CREDS-less session still spawns once. -/
theorem C5_creds_materialization_witness :
    fileAfter (some "old") [Effect.fsWrite "creds.json" "secret123"] = some "secret123"
    ∧ countSpawn (runSession none true []).2 = 1 := by
  have h := C5_creds_materialization "secret123" true [] (some "old")
  exact ⟨h.2.1, h.2.2.2 rfl⟩

/-- Counterexample to claim C6 as stated: when the creds.json write fails
(`credsResult false`) at session start, the client is notified, but the
subprocess is NOT spawned even though spawning would succeed — the error
branch of the `fs.writeFile` callback never calls `run_python_script`. The
claim asserts the spawn count here would be 1; it is 0. -/
theorem C6_creds_failure_counterexample :
    countSpawn (runSession (some "secret123") true [Event.credsResult false]).2 = 0
    ∧ consoleOutputs (runSession (some "secret123") true [Event.credsResult false]).2
        = ["❌ Failed to write creds.json"] := by
  decide

/-- Claim C6, amended: if writing the credential file fails at session
start, the bridge notifies the client with a human-readable error message
on the output channel and the socket connection is not torn down, but the
subprocess is never spawned — the session continues only as a dead shell
whose subsequent events leave it subprocess-less. -/
theorem C6_creds_failure_amended (v : String) (spawnOk : Bool) (es : List Event) :
    (runSession (some v) spawnOk (Event.credsResult false :: es)).2
      = Effect.fsWrite "creds.json" v
        :: Effect.emitConsole "❌ Failed to write creds.json"
        :: (runEvents spawnOk { pyshell := none, awaitingCreds := false } es).2
    ∧ countSpawn (runSession (some v) spawnOk (Event.credsResult false :: es)).2 = 0
    ∧ ((runSession (some v) spawnOk (Event.credsResult false :: es)).1).pyshell = none := by
  have hc := runEvents_closed spawnOk { pyshell := none, awaitingCreds := false } es rfl rfl
  refine ⟨?_, ?_, ?_⟩
  · simp [runSession, onConnect, runEvents_cons, step]
  · simp [runSession, onConnect, runEvents_cons, step, hc.2.1]
  · simp [runSession, onConnect, runEvents_cons, step, hc.1]

/-- Claim C7: if spawning the subprocess fails, the failure is reported to
the client as a `console_output` message ('Python failed to start'), and
the Session never reaches the running state: across the whole session no
subprocess is ever owned, nothing is spawned and nothing reaches stdin —
the Session has moved from pending to closed. -/
theorem C7_spawn_failure (creds : Option String) (events : List Event) (st : SessionState) :
    run_python_script false st = (st, [Effect.emitConsole "Python failed to start"])
    ∧ ((runSession creds false events).1).pyshell = none
    ∧ countSpawn (runSession creds false events).2 = 0
    ∧ stdinLines (runSession creds false events).2 = [] := by
  refine ⟨rfl, ?_, ?_, ?_⟩
  all_goals cases creds with
  | some v =>
    have h := runEvents_spawn_fail { pyshell := none, awaitingCreds := true } events rfl
    simp [runSession, onConnect, h.1, h.2.1, h.2.2]
  | none =>
    have h := runEvents_spawn_fail { pyshell := none, awaitingCreds := false } events rfl
    simp [runSession, onConnect, run_python_script, h.1, h.2.1, h.2.2]

/-- Claim C8: when the subprocess exits, the `close` handler emits the
terminal message to the client and nulls out the owned shell; afterwards
(the creds callback being long consumed) no event can ever spawn a
replacement — the Session is closed with no automatic restart. -/
theorem C8_subprocess_exit (spawnOk : Bool) (st : SessionState) (es : List Event)
    (h : st.awaitingCreds = false) :
    step spawnOk st Event.pyClose
      = ({ st with pyshell := none }, [Effect.emitConsole "\n❌ Program exited"])
    ∧ countSpawn (runEvents spawnOk { st with pyshell := none } es).2 = 0 := by
  refine ⟨rfl, ?_⟩
  exact runEvents_no_spawn spawnOk _ es (by simpa using h)

/-- Witness for C8: the exit of a running subprocess at a concrete state,
followed by a concrete post-exit event sequence that spawns nothing. -/
theorem C8_subprocess_exit_witness :
    step true { pyshell := some (), awaitingCreds := false } Event.pyClose
      = ({ pyshell := none, awaitingCreds := false },
         [Effect.emitConsole "\n❌ Program exited"])
    ∧ countSpawn (runEvents true { pyshell := none, awaitingCreds := false }
        [Event.commandEntered "balance", Event.disconnect]).2 = 0 := by
  have h := C8_subprocess_exit true { pyshell := some (), awaitingCreds := false }
    [Event.commandEntered "balance", Event.disconnect] rfl
  exact ⟨h.1, h.2⟩

/-- Counterexample to claim C9 as stated: the credential file is NOT
per-Session. Two distinct sessions (here with different CREDS values) both
write the same fixed path creds.json, so the handlers of one Session write
a file location the other Session's handlers also write. -/
theorem C9_shared_creds_file_counterexample :
    "creds.json" ∈ pathsWritten (runSession (some "alice") true [Event.credsResult true]).2
    ∧ "creds.json" ∈ pathsWritten (runSession (some "bob") true [Event.credsResult true]).2 := by
  decide

/-- Claim C9, amended: Sessions share no mutable state except the
credential file. The subprocess handle and lifecycle state are closure
locals of each connection handler (per-Session by construction in this
model), and the only file-system location any Session ever writes is the
single fixed path creds.json — which every Session with CREDS set writes,
making the credential file shared between Sessions rather than
per-Session. -/
theorem C9_no_shared_state_amended (creds : Option String) (spawnOk : Bool)
    (events : List Event) :
    (∀ p, p ∈ pathsWritten (runSession creds spawnOk events).2 → p = "creds.json")
    ∧ (∀ v, creds = some v →
        pathsWritten (runSession creds spawnOk events).2 = ["creds.json"]) := by
  constructor
  · intro p hp
    cases creds with
    | some v =>
      have hr := runEvents_no_write spawnOk { pyshell := none, awaitingCreds := true } events
      simp [runSession, onConnect, hr] at hp
      exact hp
    | none =>
      cases spawnOk with
      | true =>
        have hr := runEvents_no_write true { pyshell := some (), awaitingCreds := false } events
        simp [runSession, onConnect, run_python_script, hr] at hp
      | false =>
        have hr := runEvents_no_write false { pyshell := none, awaitingCreds := false } events
        simp [runSession, onConnect, run_python_script, hr] at hp
  · intro v hv
    subst hv
    have hr := runEvents_no_write spawnOk { pyshell := none, awaitingCreds := true } events
    simp [runSession, onConnect, hr]

/-- Witness for C9 (amended) at a concrete session. -/
theorem C9_no_shared_state_amended_witness :
    pathsWritten (runSession (some "alice") true [Event.credsResult true]).2
      = ["creds.json"] :=
  (C9_no_shared_state_amended (some "alice") true [Event.credsResult true]).2 "alice" rfl

/-- Claim C10: the kickstart variant registers a 200 ms timer right after
spawning on every connection; when it fires it sends one empty line to
stdin regardless of the session state or client activity; hence the
subprocess's input stream is the client's command sequence with one extra
empty line inserted at the firing point, and is nonempty even when the
client sent nothing. -/
theorem C10_kickstart_blank_line (creds : Option String) (cs1 cs2 : List String)
    (st : KickstartState) :
    (kickConnect none).2 = [Effect.spawn, Effect.setTimer 200]
    ∧ Effect.setTimer 200 ∈ (kickConnect creds).2
    ∧ kickStep st KEvent.timerFire = (st, [Effect.sendStdin ""])
    ∧ stdinLines (kickSession creds
        (cs1.map KEvent.commandEntered ++ KEvent.timerFire :: cs2.map KEvent.commandEntered)).2
      = cs1 ++ "" :: cs2
    ∧ stdinLines (kickSession none [KEvent.timerFire]).2 = [""] := by
  refine ⟨rfl, ?_, rfl, ?_, rfl⟩
  · cases creds <;> simp [kickConnect]
  · cases creds <;>
      simp [kickSession, kickConnect, kickRun_append, kickRun_commands, kickRun_cons, kickStep]

end BankingBridge
